import Mathlib

/-!
Verification of the deployment-environments reconciler
(`asfyaml/feature/github/deployment_environments.py`).

The Python module is embedded shallowly:

* YAML dictionaries become structures with `Option` fields; a missing key is
  `none`, and the Python `dict.get(key, default)` idiom becomes `Option.getD`.
  Python truthiness of an optional boolean (`None` is falsy) is `optTruthy`.
* The remote GitHub API is a `Transport` record of pure functions; HTTP
  responses are `HttpResponse` values and a raised `Exception` is an explicit
  error value.  A run is summarised by the list of remote calls it performs
  (`RemoteCall`) together with an optional terminal error.
* Python `set` subtraction (`list(set(a) - set(b))`) has unspecified order; it
  is embedded as a canonical representative (`pySetDiff`) that is faithful up
  to membership, which is all the source relies on.
-/

/-- A reviewer identifier from the YAML file: either a numeric user id or a
username string (`reviewer.get("id")` in the source may hold either). -/
inductive ReviewerId where
  | int (i : Int)
  | username (s : String)
deriving DecidableEq, Repr

/-- One entry of `required_reviewers`: a `{type, id}` mapping. -/
structure Reviewer where
  type : String
  id : ReviewerId
deriving DecidableEq, Repr

/-- One desired branch policy entry, a `{name}` mapping. -/
structure PolicyCfg where
  name : String
deriving DecidableEq, Repr

/-- The `deployment_branch_policy` sub-dictionary of an environment config;
every key may be absent. -/
structure DeploymentBranchPolicyCfg where
  protected_branches : Option Bool
  custom_branch_policies : Option Bool
  policies : Option (List PolicyCfg)
deriving DecidableEq, Repr

/-- One environment configuration from the `environments` mapping of the
`.asf.yaml` file; every key may be absent. -/
structure EnvConfig where
  required_reviewers : Option (List Reviewer)
  prevent_self_review : Option Bool
  wait_timer : Option Nat
  deployment_branch_policy : Option DeploymentBranchPolicyCfg
deriving DecidableEq, Repr

/-- `env_config.get("deployment_branch_policy", {})`: the sub-dictionary, or an
empty dictionary when the key is absent. -/
def EnvConfig.dbp (c : EnvConfig) : DeploymentBranchPolicyCfg :=
  c.deployment_branch_policy.getD ⟨none, none, none⟩

/-- Python truthiness of an optional boolean: `None` and `False` are falsy. -/
def optTruthy (o : Option Bool) : Bool :=
  o.getD false

/-- A structured validation error, the `{"env": ..., "error": ...}` dictionary
appended by `validate_environment_configs`. -/
structure ConfigError where
  env : String
  error : String
deriving DecidableEq, Repr

def msgMissingReviewers : String :=
  "required_reviewers is missing, minimum 1 reviewer is required"

def msgTooManyReviewers : String :=
  "required_reviewers cannot be more than 6 reviewers"

def msgBothFlags : String :=
  "protected_branches and custom_branch_policies cannot be enabled at the same time, set one of them to false"

def msgMissingPolicies : String :=
  "Policies is missing, when custom_branch_policies is enabled, minimum 1 policy is required"

/-- Rule (a): `not env_config.get("required_reviewers")` — the key is absent or
the list is empty. -/
def reviewersMissing (c : EnvConfig) : Bool :=
  (c.required_reviewers.getD []).isEmpty

/-- Rule (b): `len(env_config.get("required_reviewers", [])) > 6`. -/
def tooManyReviewers (c : EnvConfig) : Bool :=
  6 < (c.required_reviewers.getD []).length

/-- Rule (c): `is_custom_branch_policies and is_protected_branches`. -/
def conflictingFlags (c : EnvConfig) : Bool :=
  optTruthy c.dbp.custom_branch_policies && optTruthy c.dbp.protected_branches

/-- Rule (d): `is_custom_branch_policies and not ....get("policies")`. -/
def customWithoutPolicies (c : EnvConfig) : Bool :=
  optTruthy c.dbp.custom_branch_policies && (c.dbp.policies.getD []).isEmpty

/-- The errors appended for a single environment by one iteration of the loop
in `validate_environment_configs` (source lines 34-55), in source order. -/
def envConfigErrors (env : String) (c : EnvConfig) : List ConfigError :=
  (if reviewersMissing c then [⟨env, msgMissingReviewers⟩] else [])
    ++ (if tooManyReviewers c then [⟨env, msgTooManyReviewers⟩] else [])
    ++ (if conflictingFlags c then [⟨env, msgBothFlags⟩] else [])
    ++ (if customWithoutPolicies c then [⟨env, msgMissingPolicies⟩] else [])

/-- `validate_environment_configs` (source lines 31-56): iterate over the
`environments` mapping in insertion order, accumulating one error per violated
rule; the function never raises. -/
def validate_environment_configs : List (String × EnvConfig) → List ConfigError
  | [] => []
  | (env, c) :: rest => envConfigErrors env c ++ validate_environment_configs rest

/-- A resolved reviewer as sent to the remote call: `ReviewerParams(type_, id_)`
with a numeric id. -/
structure ReviewerParam where
  type : String
  id : Int
deriving DecidableEq, Repr

/-- The settings of a remote deployment environment, as determined by one
create-or-update call.  `prevent_self_review` is computed by the source but
never passed to the remote call (unsupported by the client library), so it is
not part of the remote settings. -/
structure EnvSettings where
  wait_timer : Nat
  reviewers : List ReviewerParam
  protected_branches : Bool
  custom_branch_policies : Bool
deriving DecidableEq, Repr

/-- The argument record of one `gh_repo.create_environment(...)` call. -/
structure CreateEnvCall where
  environment_name : String
  wait_timer : Nat
  reviewers : List ReviewerParam
  protected_branches : Bool
  custom_branch_policies : Bool
deriving DecidableEq, Repr

def CreateEnvCall.settings (c : CreateEnvCall) : EnvSettings :=
  ⟨c.wait_timer, c.reviewers, c.protected_branches, c.custom_branch_policies⟩

/-- `get_user_id` (source lines 85-89): an integer id passes through unchanged,
a username string is resolved via the session user lookup. -/
def get_user_id (lookup : String → Int) : ReviewerId → Int
  | .int i => i
  | .username s => lookup s

/-- `create_deployment_environment` (source lines 58-83): build the single
create-or-update call for one `(name, config)` pair.  When `required_reviewers`
is absent the source iterates over `None` and crashes (`TypeError`), embedded
as `none`. -/
def create_deployment_environment (lookup : String → Int) (env_name : String)
    (c : EnvConfig) : Option CreateEnvCall :=
  match c.required_reviewers with
  | none => none
  | some rs =>
      some
        { environment_name := env_name
          wait_timer := c.wait_timer.getD 5
          reviewers := rs.map fun r => ⟨r.type, get_user_id lookup r.id⟩
          protected_branches := c.dbp.protected_branches.getD true
          custom_branch_policies := c.dbp.custom_branch_policies.getD false }

/-- Modelled from the spec: the remote `create_environment` call (issued
through the external client library, not defined in this repository) creates
the environment if absent and otherwise overwrites its settings
("remote environment created if absent, else its settings overwritten"). -/
def applyCreateEnv (st : String → Option EnvSettings) (call : CreateEnvCall) :
    String → Option EnvSettings :=
  fun n => if n = call.environment_name then some call.settings else st n

/-- One environment upsert acting on remote state: build the call from the
config and apply it; a config on which the source would crash leaves the
remote state unchanged. -/
def upsertEnvironment (lookup : String → Int) (st : String → Option EnvSettings)
    (env_name : String) (c : EnvConfig) : String → Option EnvSettings :=
  match create_deployment_environment lookup env_name c with
  | none => st
  | some call => applyCreateEnv st call

/-- An HTTP response as the source inspects it: the status code and the
`message` field of the JSON body. -/
structure HttpResponse where
  status_code : Nat
  message : String
deriving DecidableEq, Repr

/-- The data carried by the `Exception` raised for a failed remote call:
the remote-reported message and the status code. -/
structure GHError where
  message : String
  status_code : Nat
deriving DecidableEq, Repr

/-- `create_deployment_branch_policy` (source lines 92-116): post each desired
policy in order; a response with status outside `[200, 303]` raises, aborting
the loop.  Returns the policies successfully posted (in order) and the error,
if any. -/
def create_deployment_branch_policy (post : PolicyCfg → HttpResponse) :
    List PolicyCfg → List PolicyCfg × Option GHError
  | [] => ([], none)
  | p :: rest =>
      let r := post p
      if 200 ≤ r.status_code ∧ r.status_code ≤ 303 then
        let k := create_deployment_branch_policy post rest
        (p :: k.1, k.2)
      else ([], some ⟨r.message, r.status_code⟩)

/-- A remote branch policy as returned by the list endpoint: `{id, name}`. -/
structure RemotePolicy where
  id : Int
  name : String
deriving DecidableEq, Repr

/-- `validate_204_response` (source lines 145-153): any status other than 204
raises with the remote message and status code. -/
def validate_204_response (r : HttpResponse) : Option GHError :=
  if r.status_code = 204 then none else some ⟨r.message, r.status_code⟩

/-- A remote call performed by the reconciler.  `fetchPolicies` is the only
read recorded (it is what claim-level statements about "no fetch" refer to);
the others are mutations. -/
inductive RemoteCall where
  | fetchPolicies (env : String)
  | createEnv (call : CreateEnvCall)
  | createPolicy (env : String) (policy : PolicyCfg)
  | deleteEnv (name : String)
  | deletePolicy (env : String) (policy_id : Int)
deriving DecidableEq, Repr

def RemoteCall.isMutation : RemoteCall → Bool
  | .fetchPolicies _ => false
  | _ => true

/-- The inner loop of the branch-policy deletion pass (source lines 234-242):
delete, by id, each remote policy whose name is not among the desired policy
names; a non-204 delete response raises, aborting the loop. -/
def deleteStalePolicies (del : String → Int → HttpResponse) (env : String)
    (desiredNames : List String) : List RemotePolicy → List RemoteCall × Option GHError
  | [] => ([], none)
  | rp :: rest =>
      if desiredNames.contains rp.name then
        deleteStalePolicies del env desiredNames rest
      else
        match validate_204_response (del env rp.id) with
        | some e => ([RemoteCall.deletePolicy env rp.id], some e)
        | none =>
            let k := deleteStalePolicies del env desiredNames rest
            (RemoteCall.deletePolicy env rp.id :: k.1, k.2)

/-- One iteration of the branch-policy deletion pass (source lines 213-242):
skip the environment entirely when the raw `protected_branches` flag is truthy,
otherwise fetch its remote policies and delete the stale ones. -/
def policyDeletionForEnv (remotePolicies : String → List RemotePolicy)
    (del : String → Int → HttpResponse) (env : String) (c : EnvConfig) :
    List RemoteCall × Option GHError :=
  if optTruthy c.dbp.protected_branches then ([], none)
  else
    let desiredNames := (c.dbp.policies.getD []).map PolicyCfg.name
    let k := deleteStalePolicies del env desiredNames (remotePolicies env)
    (RemoteCall.fetchPolicies env :: k.1, k.2)

/-- The branch-policy deletion pass over all desired environments in order
(source lines 210-242), aborting at the first raised error. -/
def policyDeletionPass (remotePolicies : String → List RemotePolicy)
    (del : String → Int → HttpResponse) :
    List (String × EnvConfig) → List RemoteCall × Option GHError
  | [] => ([], none)
  | (e, c) :: rest =>
      let k := policyDeletionForEnv remotePolicies del e c
      match k.2 with
      | some ex => (k.1, some ex)
      | none =>
          let k2 := policyDeletionPass remotePolicies del rest
          (k.1 ++ k2.1, k2.2)

/-- A canonical representative of Python's `list(set(a) - set(b))`: the
iteration order of a Python set is unspecified, so the embedding fixes
first-occurrence order; it is faithful up to membership. -/
def pySetDiff (a b : List String) : List String :=
  a.dedup.filter fun x => !b.contains x

/-- The environment deletion pass selection (source lines 194-197): with a
non-empty desired mapping, remote names minus desired names; with an empty
desired mapping, every remote name. -/
def environments_to_be_removed (environments : List (String × EnvConfig))
    (repo_environment_names : List String) : List String :=
  if environments.isEmpty then repo_environment_names
  else pySetDiff repo_environment_names (environments.map Prod.fst)

/-- The errors a run can terminate with: the aggregate validation exception
(source line 172), a remote-call error, or the crash on iterating a missing
reviewer list. -/
inductive RunError where
  | validation (errors : List ConfigError)
  | remote (e : GHError)
  | typeError
deriving DecidableEq, Repr

/-- The remote side as seen by one run: the user-id lookup, the remote
environment list, and the HTTP endpoints for branch policies. -/
structure Transport where
  user_id : String → Int
  remote_env_names : List String
  policy_post : String → PolicyCfg → HttpResponse
  remote_policies : String → List RemotePolicy
  policy_delete : String → Int → HttpResponse

/-- The upsert phase (source lines 174-184): for each desired environment in
order, issue the create-or-update call, then, when `custom_branch_policies` is
truthy, post the desired branch policies; any raise aborts the phase. -/
def upsertPhase (lookup : String → Int) (post : String → PolicyCfg → HttpResponse) :
    List (String × EnvConfig) → List RemoteCall × Option RunError
  | [] => ([], none)
  | (e, c) :: rest =>
      match create_deployment_environment lookup e c with
      | none => ([], some .typeError)
      | some call =>
          if optTruthy c.dbp.custom_branch_policies then
            let k := create_deployment_branch_policy (post e) (c.dbp.policies.getD [])
            let tr := RemoteCall.createEnv call :: k.1.map (RemoteCall.createPolicy e)
            match k.2 with
            | some ex => (tr, some (.remote ex))
            | none =>
                let k2 := upsertPhase lookup post rest
                (tr ++ k2.1, k2.2)
          else
            let k2 := upsertPhase lookup post rest
            (RemoteCall.createEnv call :: k2.1, k2.2)

/-- The `deployment_environments` directive (source lines 155-242).
`yaml_env` is `none` when the `environments` key is absent from the YAML file,
`some m` (possibly empty) when it is present; `noop` is the cache gate
(`self.noop("environments")`).  Returns the remote calls performed, in order,
and the terminal error if the run raised. -/
def deployment_environments (yaml_env : Option (List (String × EnvConfig)))
    (noop : Bool) (t : Transport) : List RemoteCall × Option RunError :=
  let environments := yaml_env.getD []
  if noop then ([], none)
  else
    let phase1 : List RemoteCall × Option RunError :=
      if environments.isEmpty then ([], none)
      else
        let errs := validate_environment_configs environments
        if errs.isEmpty then upsertPhase t.user_id t.policy_post environments
        else ([], some (.validation errs))
    match phase1.2 with
    | some _ => phase1
    | none =>
        match yaml_env with
        | none => phase1
        | some _ =>
            let removed := environments_to_be_removed environments t.remote_env_names
            let delTrace := removed.map RemoteCall.deleteEnv
            let phase3 : List RemoteCall × Option RunError :=
              if environments.isEmpty then ([], none)
              else
                let k := policyDeletionPass t.remote_policies t.policy_delete environments
                (k.1, k.2.map RunError.remote)
            (phase1.1 ++ delTrace ++ phase3.1, phase3.2)

/-! ## Helper lemmas about the validator -/

lemma validate_eq_flatMap (envs : List (String × EnvConfig)) :
    validate_environment_configs envs
      = envs.flatMap fun p => envConfigErrors p.1 p.2 := by
  induction envs with
  | nil => rfl
  | cons p rest ih =>
      obtain ⟨e, c⟩ := p
      simp [validate_environment_configs, List.flatMap_cons, ih]

lemma mem_envConfigErrors (e : String) (c : EnvConfig) (err : ConfigError) :
    err ∈ envConfigErrors e c ↔
      err.env = e ∧
        ((err.error = msgMissingReviewers ∧ reviewersMissing c = true)
          ∨ (err.error = msgTooManyReviewers ∧ tooManyReviewers c = true)
          ∨ (err.error = msgBothFlags ∧ conflictingFlags c = true)
          ∨ (err.error = msgMissingPolicies ∧ customWithoutPolicies c = true)) := by
  obtain ⟨ee, er⟩ := err
  cases hm : reviewersMissing c <;> cases ht : tooManyReviewers c <;>
    cases hc : conflictingFlags c <;> cases hp : customWithoutPolicies c <;>
      simp [envConfigErrors, hm, ht, hc, hp, ConfigError.mk.injEq] <;> tauto

lemma mem_validate (envs : List (String × EnvConfig)) (err : ConfigError) :
    err ∈ validate_environment_configs envs
      ↔ ∃ p ∈ envs, err ∈ envConfigErrors p.1 p.2 := by
  rw [validate_eq_flatMap, List.mem_flatMap]

/-! ## Claims -/

/-- C5: the environment upsert is idempotent — applying the upsert twice with
the same `(name, config)` pair yields the same final remote environment
settings as applying it once. -/
theorem environment_upsert_idempotent (lookup : String → Int)
    (st : String → Option EnvSettings) (env_name : String) (c : EnvConfig) :
    upsertEnvironment lookup (upsertEnvironment lookup st env_name c) env_name c
      = upsertEnvironment lookup st env_name c := by
  unfold upsertEnvironment
  cases h : create_deployment_environment lookup env_name c with
  | none => rfl
  | some call =>
      funext n
      by_cases hn : n = call.environment_name <;> simp [applyCreateEnv, hn]

/-- C6: an integer reviewer identifier passes through `get_user_id` unchanged,
a username string is resolved to a numeric id via the user lookup, and the
upsert call carries exactly the resolved reviewer list. -/
theorem reviewer_id_resolution (lookup : String → Int) :
    (∀ i : Int, get_user_id lookup (ReviewerId.int i) = i)
    ∧ (∀ s : String, get_user_id lookup (ReviewerId.username s) = lookup s)
    ∧ (∀ (env_name : String) (c : EnvConfig) (rs : List Reviewer),
        c.required_reviewers = some rs →
          ∃ call, create_deployment_environment lookup env_name c = some call
            ∧ call.reviewers = rs.map fun r => ⟨r.type, get_user_id lookup r.id⟩) := by
  refine ⟨fun i => rfl, fun s => rfl, fun env_name c rs h => ?_⟩
  simp [create_deployment_environment, h]

def demoLookup : String → Int := fun s => if s = "alice" then 42 else 0

def demoReviewers : List Reviewer := [⟨"User", .username "alice"⟩, ⟨"User", .int 7⟩]

def demoReviewerCfg : EnvConfig := ⟨some demoReviewers, none, none, none⟩

/-- C6 witness: the username reviewer resolves to 42, the integer reviewer 7
passes through unchanged. -/
theorem reviewer_id_resolution_witness :
    ∃ call, create_deployment_environment demoLookup "E" demoReviewerCfg = some call
      ∧ call.reviewers = demoReviewers.map fun r => ⟨r.type, get_user_id demoLookup r.id⟩ :=
  (reviewer_id_resolution demoLookup).2.2 "E" demoReviewerCfg demoReviewers rfl

/-- C7: posting one branch policy with a response status outside `[200, 303]`
raises an error carrying the remote message and the status code, aborting the
loop; a status inside `[200, 303]` does not raise and the loop continues with
the remaining policies in order. -/
theorem branch_policy_create_status_check (post : PolicyCfg → HttpResponse)
    (p : PolicyCfg) (rest : List PolicyCfg) :
    (¬ (200 ≤ (post p).status_code ∧ (post p).status_code ≤ 303) →
        create_deployment_branch_policy post (p :: rest)
          = ([], some ⟨(post p).message, (post p).status_code⟩))
    ∧ ((200 ≤ (post p).status_code ∧ (post p).status_code ≤ 303) →
        create_deployment_branch_policy post (p :: rest)
          = (p :: (create_deployment_branch_policy post rest).1,
             (create_deployment_branch_policy post rest).2)) := by
  constructor <;> intro h <;> simp [create_deployment_branch_policy, h]

def demoPost : PolicyCfg → HttpResponse :=
  fun p => if p.name = "bad" then ⟨404, "Not Found"⟩ else ⟨201, "created"⟩

/-- C7 witness: a 404 response aborts with the remote message and status code;
a 201 response continues with the rest of the policy list. -/
theorem branch_policy_create_status_check_witness :
    create_deployment_branch_policy demoPost [⟨"bad"⟩, ⟨"main"⟩]
      = ([], some ⟨"Not Found", 404⟩)
    ∧ create_deployment_branch_policy demoPost [⟨"main"⟩]
      = (PolicyCfg.mk "main" :: (create_deployment_branch_policy demoPost []).1,
         (create_deployment_branch_policy demoPost []).2) :=
  ⟨(branch_policy_create_status_check demoPost ⟨"bad"⟩ [⟨"main"⟩]).1 (by decide),
   (branch_policy_create_status_check demoPost ⟨"main"⟩ []).2 (by decide)⟩

/-- C4: the validator returns one structured error per violated invariant
across all environments, in iteration order; each entry carries the offending
environment name and a non-empty human-readable message; being a total
function, it never raises; an environment violating several rules contributes
one entry per violated rule. -/
theorem validator_accumulates_one_error_per_violated_rule
    (envs : List (String × EnvConfig)) :
    validate_environment_configs envs
        = (envs.flatMap fun p => envConfigErrors p.1 p.2)
    ∧ (∀ (e : String) (c : EnvConfig), (envConfigErrors e c).length
        = (reviewersMissing c).toNat + (tooManyReviewers c).toNat
          + (conflictingFlags c).toNat + (customWithoutPolicies c).toNat)
    ∧ (∀ (e : String) (c : EnvConfig) (err : ConfigError),
        err ∈ envConfigErrors e c → err.env = e ∧ err.error ≠ "") := by
  refine ⟨validate_eq_flatMap envs, fun e c => ?_, fun e c err h => ?_⟩
  · cases hm : reviewersMissing c <;> cases ht : tooManyReviewers c <;>
      cases hc : conflictingFlags c <;> cases hp : customWithoutPolicies c <;>
        simp [envConfigErrors, hm, ht, hc, hp]
  · rcases (mem_envConfigErrors e c err).1 h with ⟨henv, hmsg⟩
    refine ⟨henv, ?_⟩
    rcases hmsg with ⟨hmsg, _⟩ | ⟨hmsg, _⟩ | ⟨hmsg, _⟩ | ⟨hmsg, _⟩ <;>
      rw [hmsg] <;> decide

def demoMultiBadCfg : EnvConfig :=
  ⟨none, none, none, some ⟨some true, some true, none⟩⟩

/-- C4 witness: a configuration violating three rules at once yields entries
that carry the environment name and a non-empty message. -/
theorem validator_accumulates_one_error_per_violated_rule_witness :
    ConfigError.env ⟨"E", msgBothFlags⟩ = "E"
      ∧ ConfigError.error ⟨"E", msgBothFlags⟩ ≠ "" :=
  (validator_accumulates_one_error_per_violated_rule []).2.2 "E" demoMultiBadCfg
    ⟨"E", msgBothFlags⟩ (by decide)

/-- C8: the validator flags `required_reviewers` with more than 6 entries, and
does not flag a configuration with exactly 6 reviewers. -/
theorem reviewer_limit_flagged_iff_more_than_six :
    (∀ (e : String) (c : EnvConfig),
        ConfigError.mk e msgTooManyReviewers ∈ validate_environment_configs [(e, c)]
          ↔ 6 < (c.required_reviewers.getD []).length)
    ∧ (∀ (e : String) (c : EnvConfig), (c.required_reviewers.getD []).length = 6 →
        ConfigError.mk e msgTooManyReviewers ∉ validate_environment_configs [(e, c)]) := by
  have h1 : msgTooManyReviewers ≠ msgMissingReviewers := by decide
  have h2 : msgTooManyReviewers ≠ msgBothFlags := by decide
  have h3 : msgTooManyReviewers ≠ msgMissingPolicies := by decide
  have key : ∀ (e : String) (c : EnvConfig),
      ConfigError.mk e msgTooManyReviewers ∈ validate_environment_configs [(e, c)]
        ↔ 6 < (c.required_reviewers.getD []).length := by
    intro e c
    rw [show validate_environment_configs [(e, c)] = envConfigErrors e c by
          simp [validate_environment_configs]]
    rw [mem_envConfigErrors]
    simp [h1, h2, h3, tooManyReviewers]
  refine ⟨key, fun e c h => ?_⟩
  rw [key e c, h]
  omega

def demoSixReviewers : List Reviewer :=
  [⟨"User", .int 1⟩, ⟨"User", .int 2⟩, ⟨"User", .int 3⟩,
   ⟨"User", .int 4⟩, ⟨"User", .int 5⟩, ⟨"User", .int 6⟩]

def demoSixCfg : EnvConfig := ⟨some demoSixReviewers, none, none, none⟩

/-- C8 witness: exactly 6 reviewers is not flagged. -/
theorem reviewer_limit_flagged_iff_more_than_six_witness :
    ConfigError.mk "E" msgTooManyReviewers
      ∉ validate_environment_configs [("E", demoSixCfg)] :=
  reviewer_limit_flagged_iff_more_than_six.2 "E" demoSixCfg (by decide)

/-- C9: a configuration in which both `protected_branches` and
`custom_branch_policies` are truthy is flagged by the validator, regardless of
every other field. -/
theorem both_flags_always_flagged (envs : List (String × EnvConfig))
    (e : String) (c : EnvConfig) (hmem : (e, c) ∈ envs)
    (hpb : optTruthy c.dbp.protected_branches = true)
    (hcb : optTruthy c.dbp.custom_branch_policies = true) :
    ConfigError.mk e msgBothFlags ∈ validate_environment_configs envs := by
  rw [mem_validate]
  refine ⟨(e, c), hmem, ?_⟩
  rw [mem_envConfigErrors]
  refine ⟨rfl, Or.inr (Or.inr (Or.inl ⟨rfl, ?_⟩))⟩
  simp [conflictingFlags, hpb, hcb]

def demoBothFlagsCfg : EnvConfig :=
  ⟨some [⟨"User", .int 1⟩], some false, some 30,
    some ⟨some true, some true, some [⟨"main"⟩]⟩⟩

/-- C9 witness: both flags set on an otherwise fully-populated config is
flagged. -/
theorem both_flags_always_flagged_witness :
    ConfigError.mk "E" msgBothFlags
      ∈ validate_environment_configs [("E", demoBothFlagsCfg)] :=
  both_flags_always_flagged [("E", demoBothFlagsCfg)] "E" demoBothFlagsCfg
    (by decide) (by decide) (by decide)

/-- C1: with the `environments` key present, the environment deletion pass
selects exactly the set difference remote names minus desired names; with an
empty desired mapping it selects every remote environment; a desired
environment is never selected. -/
theorem env_deletion_is_set_difference (envs : List (String × EnvConfig))
    (remote : List String) (n : String) :
    (envs.isEmpty = false →
        (n ∈ environments_to_be_removed envs remote
          ↔ n ∈ remote ∧ n ∉ envs.map Prod.fst))
    ∧ (envs.isEmpty = true → environments_to_be_removed envs remote = remote)
    ∧ (n ∈ envs.map Prod.fst → n ∉ environments_to_be_removed envs remote) := by
  have hdiff : envs.isEmpty = false →
      (n ∈ environments_to_be_removed envs remote
        ↔ n ∈ remote ∧ n ∉ envs.map Prod.fst) := by
    intro h
    simp [environments_to_be_removed, h, pySetDiff, List.mem_filter, List.mem_dedup]
  refine ⟨hdiff, fun h => by simp [environments_to_be_removed, h], fun h => ?_⟩
  cases he : envs.isEmpty with
  | false => exact fun hcon => ((hdiff he).1 hcon).2 h
  | true =>
      rw [List.isEmpty_iff] at he
      subst he
      simp at h

def demoDesiredAB : List (String × EnvConfig) :=
  [("A", demoReviewerCfg), ("B", demoReviewerCfg)]

/-- C1 witness: remote {A, B, C} and desired {A, B} select exactly {C}, and the
desired environment A is not selected. -/
theorem env_deletion_is_set_difference_witness :
    ("C" ∈ environments_to_be_removed demoDesiredAB ["A", "B", "C"]
        ↔ "C" ∈ ["A", "B", "C"] ∧ "C" ∉ demoDesiredAB.map Prod.fst)
    ∧ "A" ∉ environments_to_be_removed demoDesiredAB ["A", "B", "C"] :=
  ⟨(env_deletion_is_set_difference demoDesiredAB ["A", "B", "C"] "C").1 rfl,
   (env_deletion_is_set_difference demoDesiredAB ["A", "B", "C"] "A").2.2 (by decide)⟩

lemma deleteStalePolicies_all204 (del : String → Int → HttpResponse) (env : String)
    (names : List String) (l : List RemotePolicy)
    (h : ∀ rp ∈ l, (del env rp.id).status_code = 204) :
    deleteStalePolicies del env names l
      = ((l.filter fun rp => !names.contains rp.name).map
          fun rp => RemoteCall.deletePolicy env rp.id, none) := by
  induction l with
  | nil => rfl
  | cons rp rest ih =>
      have hrp := h rp (List.mem_cons_self rp rest)
      have hrest : ∀ x ∈ rest, (del env x.id).status_code = 204 :=
        fun x hx => h x (List.mem_cons_of_mem rp hx)
      cases hc : names.contains rp.name with
      | true =>
          simp at hc
          simp [deleteStalePolicies, hc, List.filter_cons, ih hrest]
      | false =>
          simp at hc
          have h204 : validate_204_response (del env rp.id) = none := by
            simp [validate_204_response, hrp]
          simp [deleteStalePolicies, hc, h204, List.filter_cons, ih hrest]

/-- C2: for an environment whose raw `protected_branches` flag is not truthy,
the branch policy deletion pass fetches that environment's remote policies and
deletes, by id, exactly those whose name is not among the desired policy
names; for a truthy `protected_branches` flag it performs no fetch and no
delete. -/
theorem policy_deletion_deletes_stale_and_skips_protected
    (remotePolicies : String → List RemotePolicy) (del : String → Int → HttpResponse)
    (env : String) (c : EnvConfig) :
    (optTruthy c.dbp.protected_branches = false →
      (∀ rp ∈ remotePolicies env, (del env rp.id).status_code = 204) →
      policyDeletionForEnv remotePolicies del env c
        = (RemoteCall.fetchPolicies env ::
            ((remotePolicies env).filter fun rp =>
              !(((c.dbp.policies.getD []).map PolicyCfg.name).contains rp.name)).map
              (fun rp => RemoteCall.deletePolicy env rp.id), none))
    ∧ (optTruthy c.dbp.protected_branches = true →
        policyDeletionForEnv remotePolicies del env c = ([], none)) := by
  constructor
  · intro hp h204
    simp [policyDeletionForEnv, hp,
      deleteStalePolicies_all204 del env ((c.dbp.policies.getD []).map PolicyCfg.name)
        (remotePolicies env) h204]
  · intro hp
    simp [policyDeletionForEnv, hp]

def demoRemotePolicies : String → List RemotePolicy :=
  fun _ => [⟨1, "p1"⟩, ⟨2, "p2"⟩]

def demoDel : String → Int → HttpResponse := fun _ _ => ⟨204, ""⟩

def demoCustomCfg : EnvConfig :=
  ⟨some [⟨"User", .int 1⟩], none, none,
    some ⟨some false, some true, some [⟨"p1"⟩, ⟨"p3"⟩]⟩⟩

def demoProtectedCfg : EnvConfig :=
  ⟨some [⟨"User", .int 1⟩], none, none, some ⟨some true, some false, none⟩⟩

/-- C2 witness: remote policies {p1, p2} with desired {p1, p3} delete exactly
p2's id after one fetch; a protected-branches environment performs no call. -/
theorem policy_deletion_deletes_stale_and_skips_protected_witness :
    policyDeletionForEnv demoRemotePolicies demoDel "E" demoCustomCfg
      = (RemoteCall.fetchPolicies "E" :: [RemoteCall.deletePolicy "E" 2], none)
    ∧ policyDeletionForEnv demoRemotePolicies demoDel "P" demoProtectedCfg
      = ([], none) :=
  ⟨(policy_deletion_deletes_stale_and_skips_protected demoRemotePolicies demoDel
      "E" demoCustomCfg).1 (by decide) (by decide),
   (policy_deletion_deletes_stale_and_skips_protected demoRemotePolicies demoDel
      "P" demoProtectedCfg).2 (by decide)⟩

/-- C3: when the desired mapping is non-empty and the validator reports at
least one error, the run terminates with the single aggregate validation
exception carrying all violations, and performs no remote call at all (in
particular no create, update or delete). -/
theorem run_aborts_on_validation_errors (yaml_env : Option (List (String × EnvConfig)))
    (t : Transport) (envs : List (String × EnvConfig))
    (hy : yaml_env = some envs) (hne : envs.isEmpty = false)
    (herr : (validate_environment_configs envs).isEmpty = false) :
    deployment_environments yaml_env false t
      = ([], some (RunError.validation (validate_environment_configs envs))) := by
  subst hy
  simp [deployment_environments, hne, herr]

def demoBadYaml : List (String × EnvConfig) := [("E", demoMultiBadCfg)]

def demoTransport : Transport :=
  ⟨demoLookup, ["A", "B", "C"], fun _ => demoPost, demoRemotePolicies, demoDel⟩

/-- C3 witness: an invalid desired mapping makes the run abort with the
aggregate validation error and an empty call trace. -/
theorem run_aborts_on_validation_errors_witness :
    deployment_environments (some demoBadYaml) false demoTransport
      = ([], some (RunError.validation (validate_environment_configs demoBadYaml))) :=
  run_aborts_on_validation_errors (some demoBadYaml) demoTransport demoBadYaml
    rfl (by decide) (by decide)

/-- C10: a config that omits `deployment_branch_policy` entirely is upserted
with `protected_branches = true` and `custom_branch_policies = false`, yet the
branch policy deletion pass does not skip it (the skip condition reads the
raw, absent flag), so it still fetches that environment's remote policies and,
the desired policy list being empty, deletes every one of them. -/
theorem absent_branch_policy_defaults_protected_but_not_skipped
    (lookup : String → Int) (remotePolicies : String → List RemotePolicy)
    (del : String → Int → HttpResponse) (env : String) (c : EnvConfig)
    (hdbp : c.deployment_branch_policy = none)
    (h204 : ∀ rp ∈ remotePolicies env, (del env rp.id).status_code = 204) :
    (∀ call, create_deployment_environment lookup env c = some call →
        call.protected_branches = true ∧ call.custom_branch_policies = false)
    ∧ policyDeletionForEnv remotePolicies del env c
        = (RemoteCall.fetchPolicies env ::
            (remotePolicies env).map (fun rp => RemoteCall.deletePolicy env rp.id),
           none) := by
  have hd : c.dbp = ⟨none, none, none⟩ := by simp [EnvConfig.dbp, hdbp]
  constructor
  · intro call hcall
    cases hrr : c.required_reviewers with
    | none => simp [create_deployment_environment, hrr] at hcall
    | some rs =>
        simp [create_deployment_environment, hrr, hd] at hcall
        rw [← hcall]
        exact ⟨rfl, rfl⟩
  · have h := deleteStalePolicies_all204 del env [] (remotePolicies env) h204
    simp [policyDeletionForEnv, optTruthy, hd, h]

def demoNoDbpCfg : EnvConfig := ⟨some [⟨"User", .int 1⟩], none, none, none⟩

/-- C10 witness: with `deployment_branch_policy` absent, the upsert call uses
protected mode, and the deletion pass still fetches and deletes both remote
policies of the environment. -/
theorem absent_branch_policy_defaults_protected_but_not_skipped_witness :
    (∀ call, create_deployment_environment demoLookup "E" demoNoDbpCfg = some call →
        call.protected_branches = true ∧ call.custom_branch_policies = false)
    ∧ policyDeletionForEnv demoRemotePolicies demoDel "E" demoNoDbpCfg
        = (RemoteCall.fetchPolicies "E" ::
            (demoRemotePolicies "E").map (fun rp => RemoteCall.deletePolicy "E" rp.id),
           none) :=
  absent_branch_policy_defaults_protected_but_not_skipped demoLookup
    demoRemotePolicies demoDel "E" demoNoDbpCfg rfl (by decide)
